import Mathlib

/-!
Shallow embedding of the visit-tracking Telegram bot (`src/index.ts`).

The handlers are modelled as pure functions over an explicit database and
an explicit per-user conversation-state map.  External collaborators
(Telegram transport, MongoDB, the `getFile` API call) enter as parameters:
a query/save that can reject in JavaScript is modelled by a boolean
failure flag or an `Except` value carried in an environment record.
Coordinates and trigonometry are modelled over the real numbers.
-/

namespace VisitBot

/-! ## GeoValidator: `calculateDistance` (index.ts lines 42-59) -/

/-- Model of JavaScript `Math.atan2 y x` over the reals (signed-zero
distinctions of IEEE 754 do not exist here; `atan2 0 0 = 0` as in JS). -/
noncomputable def atan2 (y x : ℝ) : ℝ :=
  if 0 < x then Real.arctan (y / x)
  else if x < 0 then
    (if 0 ≤ y then Real.arctan (y / x) + Real.pi else Real.arctan (y / x) - Real.pi)
  else if 0 < y then Real.pi / 2
  else if y < 0 then -(Real.pi / 2)
  else 0

/-- Haversine distance, transcribed from `calculateDistance` in
`index.ts` lines 42-59 (`R = 6371e3` meters). -/
noncomputable def calculateDistance (lat1 lon1 lat2 lon2 : ℝ) : ℝ :=
  let R : ℝ := 6371e3
  let phi1 := lat1 * Real.pi / 180
  let phi2 := lat2 * Real.pi / 180
  let dPhi := (lat2 - lat1) * Real.pi / 180
  let dLam := (lon2 - lon1) * Real.pi / 180
  let a := Real.sin (dPhi / 2) * Real.sin (dPhi / 2) +
    Real.cos phi1 * Real.cos phi2 * Real.sin (dLam / 2) * Real.sin (dLam / 2)
  let c := 2 * atan2 (Real.sqrt a) (Real.sqrt (1 - a))
  R * c

/-! ## Model of the `dayjs` default string parser

`index.ts` imports bare `dayjs` (no `customParseFormat` plugin), so the
format argument in `dayjs(arg, "YYYY-MM-DD")` (line 378) is ignored and
the string goes through dayjs's default `parseDate`, which has three
routes:
- a string ending in `Z` or `z` (the `/Z$/i` test) goes straight to
  engine-level `new Date(string)`;
- otherwise a string matching dayjs's general numeric pattern
  `^(\d\x7b4\x7d) SEP? (\d\x7b1,2\x7d)? SEP? (\d\x7b0,2\x7d)[Tt\s]*...$`
  (`SEP` being the class holding dash and forward slash) is turned into
  a numeric `new Date(y, m, d, ...)` construction, which in JavaScript
  never yields an Invalid Date (components overflow and roll over), so
  `isValid()` is true for every such string;
- otherwise the string falls back to engine-level `new Date(string)`.
The numeric pattern is modelled concretely below.  Validity of the
engine-level `new Date(string)` route is ECMAScript-implementation
territory (the standard mandates ISO 8601 strings; anything further is
implementation-defined), so it enters the model as an explicit
parameter, `dateFallback`, carried by the report environment. -/

/-- Match a sequence of (min-count, optional max-count, character-class)
items against a character list: true iff the list splits into consecutive
chunks, one per item, each chunk within the item's bounds and drawn from
its class.  Acceptance (not capture) semantics of an anchored regex built
from such items. -/
def matchItems : List (Nat × Option Nat × (Char → Bool)) → List Char → Bool
  | [], s => s.isEmpty
  | (lo, hi, cls) :: rest, s =>
    (List.range (min (hi.getD s.length) s.length + 1)).any (fun k =>
      decide (lo ≤ k) && (s.take k).all cls && matchItems rest (s.drop k))

/-- Item form of dayjs's default parse pattern (`REGEX_PARSE` in dayjs):
four digits, optional separator, up to two digits, optional separator, up
to two digits, any run of `T`/`t`/whitespace, then optional two-digit
time fields separated by `:` and an optional fraction. -/
def dayjsPattern : List (Nat × Option Nat × (Char → Bool)) :=
  [ (4, some 4, Char.isDigit),
    (0, some 1, fun c => c = '-' || c = '/'),
    (0, some 2, Char.isDigit),
    (0, some 1, fun c => c = '-' || c = '/'),
    (0, some 2, Char.isDigit),
    (0, none, fun c => c = 'T' || c = 't' || c.isWhitespace),
    (0, some 2, Char.isDigit),
    (0, some 1, fun c => c = ':'),
    (0, some 2, Char.isDigit),
    (0, some 1, fun c => c = ':'),
    (0, some 2, Char.isDigit),
    (0, some 1, fun c => c = '.' || c = ':'),
    (0, none, Char.isDigit) ]

/-- The `/Z$/i` test of dayjs's `parseDate`: true iff the string ends in
`Z` or `z`. -/
def endsInZ (s : String) : Bool :=
  match s.data.getLast? with
  | some c => c = 'Z' || c = 'z'
  | none => false

/-- Validity of `dayjs(s, "YYYY-MM-DD").isValid()` as executed by
`index.ts` lines 378-379 (format ignored without the plugin), following
the three routes of dayjs's `parseDate`: `dateFallback` is the validity
of engine-level `new Date(s)`, the route taken by trailing-`Z` strings
and by strings failing the numeric pattern. -/
def dayjsIsValid (dateFallback : String → Bool) (s : String) : Bool :=
  if endsInZ s then dateFallback s
  else if matchItems dayjsPattern s.data then true
  else dateFallback s

/-! ## Data model (`src/models/User.ts`, `src/models/Shop.ts`) -/

/-- Role enum of the user schema (`'admin' | 'employee'`). -/
inductive Role where
  | admin
  | employee
deriving DecidableEq

/-- Participant record (user schema in `models/User.ts`; the
`registeredAt` default timestamp is not needed by any claim and is
omitted). -/
structure UserRec where
  telegramId : Int
  firstName : Option String
  username : Option String
  employeeId : Option String
  fullName : Option String
  role : Role
  isActive : Bool
deriving DecidableEq

/-- Shop record (`models/Shop.ts`). -/
structure ShopRec where
  code : String
  name : String

/-- Visit record (visit schema in `models/User.ts`).  `coordinates` is
stored in GeoJSON order `[longitude, latitude]`; `timestamp` is epoch
milliseconds. -/
structure VisitRec where
  telegramId : Int
  firstName : Option String
  username : Option String
  shopCode : String
  shopName : String
  locationType : String
  coordinates : List ℝ
  photoId : String
  photoFilePath : Option String
  timestamp : Int

/-- The document store: the three MongoDB collections. -/
structure DB where
  users : List UserRec
  shops : List ShopRec
  visits : List VisitRec

/-! ## ConversationStateStore (`userStates` map, index.ts lines 33-39) -/

/-- Conversation state (`State` union in index.ts lines 34-37).  The
optional `location` field of the `awaiting_location` variant is never
written or read by any handler and is omitted. -/
inductive ConvState where
  | register
  | awaiting_photo (shopCode : String)
  | awaiting_location (shopCode : String) (photoId : String)
deriving DecidableEq

/-- The in-memory `userStates : Map<number, State>`. -/
def StateMap : Type := Int → Option ConvState

/-- `userStates.set(id, s)`. -/
def StateMap.set (m : StateMap) (id : Int) (s : ConvState) : StateMap :=
  fun k => if k = id then some s else m k

/-- `userStates.delete(id)`. -/
def StateMap.del (m : StateMap) (id : Int) : StateMap :=
  fun k => if k = id then none else m k

/-! ## Handler plumbing -/

/-- The `ctx.from` fields the modelled handlers read. -/
structure Sender where
  id : Int
  first_name : Option String
  username : Option String

/-- Outbound replies, one constructor per `ctx.reply(...)` call site in
the modelled handlers (identified by message, not by raw string). -/
inductive Reply where
  | visitUsage                -- "Использование: /visit <SHOP_CODE>"
  | notRegistered             -- "Вы не зарегистрированы. ..."
  | visitStarted (code : String)    -- "Вы начали визит в магазин ..."
  | alreadyRegistered         -- "Вы уже зарегистрированы."
  | accountLinked             -- "Спасибо! Ваш аккаунт привязан."
  | registrationFailed        -- "Не удалось зарегистрироваться, ..."
  | photoStartVisitFirst      -- "Чтобы отметить визит, сначала откройте /visit ..."
  | photoFailed               -- "Не удалось получить фото, повторите попытку."
  | forwardedRejected         -- "Пожалуйста, сделайте новое фото. Пересланные фото не принимаются."
  | askLocation               -- "Пожалуйста, поделитесь геолокацией (кнопка ниже)."
  | locStartVisitFirst        -- "Сначала начните визит командой /visit ..."
  | tooFar (meters : ℤ)       -- "Вы слишком далеко от точки (расстояние: ... м)."
  | visitSaved                -- "Спасибо! Записал визит в ..."
  | allSubmitted              -- "Все сотрудники отчитались!"
  | errorTryLater             -- "Произошла ошибка, попробуйте позже."

/-- Result of one handler invocation: the conversation-state map and
database after the handler ran, plus the replies it sent, in order. -/
structure StepResult where
  userStates : StateMap
  db : DB
  replies : List Reply

/-- Tokenisation `text.trim().split(/\s+/)`: drop surrounding whitespace,
then split at whitespace runs (the `\s+` regex yields no empty tokens on
a trimmed non-empty string). -/
def wordsAux : List Char → List Char → List String
  | [], acc => if acc.isEmpty then [] else [String.mk acc.reverse]
  | c :: rest, acc =>
    if c.isWhitespace then
      (if acc.isEmpty then wordsAux rest [] else String.mk acc.reverse :: wordsAux rest [])
    else wordsAux rest (c :: acc)

/-- Leading/trailing whitespace removal on the character list. -/
def trimChars (l : List Char) : List Char :=
  ((l.dropWhile Char.isWhitespace).reverse.dropWhile Char.isWhitespace).reverse

/-- `text.trim().split(/\s+/)` as a list of tokens. -/
def splitWhitespace (s : String) : List String := wordsAux (trimChars s.data) []

/-! ## ComplianceAggregator: `checkAllSubmitted` (index.ts lines 62-76) -/

/-- The roster `checkAllSubmitted` checks against: the result of
`User.find(\x7b role: 'employee', isActive: true \x7d)`. -/
def roster (db : DB) : List UserRec :=
  db.users.filter (fun u => u.role == Role.employee && u.isActive)

/-- `checkAllSubmitted` (lines 62-76).  `midnight` is the epoch value of
`new Date(new Date().setHours(0, 0, 0, 0))`, start of the local day. -/
def checkAllSubmitted (db : DB) (midnight : Int) : Bool :=
  let activeEmployees := roster db
  if activeEmployees.length = 0 then false
  else
    let visits := db.visits.filter (fun v => decide (midnight ≤ v.timestamp))
    (activeEmployees.map (fun e => e.telegramId)).all (fun i =>
      visits.any (fun v => v.telegramId == i))

/-! ## `/visit` command handler (index.ts lines 114-129) -/

/-- The `bot.command("visit")` handler.  `text` is the full message text
(`ctx.message.text`). -/
def onVisitCommand (frm : Sender) (text : String) (states : StateMap) (db : DB) :
    StepResult :=
  let parts := splitWhitespace text
  match parts.get? 1 with
  | none => { userStates := states, db := db, replies := [Reply.visitUsage] }
  | some code =>
    -- `if (!code)` also fires on an empty-string token (JS falsy); the
    -- tokenizer never produces one, but the check is kept for fidelity
    if code = "" then { userStates := states, db := db, replies := [Reply.visitUsage] }
    else
      match db.users.find? (fun u => u.telegramId == frm.id) with
      | none => { userStates := states, db := db, replies := [Reply.notRegistered] }
      | some _ =>
        { userStates := states.set frm.id (ConvState.awaiting_photo code),
          db := db,
          replies := [Reply.visitStarted code] }

/-! ## Text handler (index.ts lines 132-171): registration sub-flow -/

/-- The `bot.on("message:text")` handler.  `saveFails` injects a
rejection of `newUser.save()`; the final catch then replies and leaves
the state in place.  A text outside the registration flow (including the
"Share location" button text, line 170) produces no action and no
reply. -/
def onText (adminIds : List Int) (frm : Sender) (rawText : String)
    (saveFails : Bool) (states : StateMap) (db : DB) : StepResult :=
  let isAdmin := adminIds.contains frm.id
  let text := String.mk (trimChars rawText.data)
  match states frm.id with
  | some ConvState.register =>
    match db.users.find? (fun u => u.telegramId == frm.id) with
    | some _ =>
      { userStates := states.del frm.id, db := db, replies := [Reply.alreadyRegistered] }
    | none =>
      if saveFails then
        { userStates := states, db := db, replies := [Reply.registrationFailed] }
      else
        let newUser : UserRec :=
          { telegramId := frm.id,
            firstName := frm.first_name,
            username := frm.username,
            -- `text?.match(/^\d+$/) ? text : undefined`
            employeeId :=
              if !text.data.isEmpty && text.data.all Char.isDigit then some text else none,
            -- `text?.match(/\D/) ? text : undefined`
            fullName :=
              if text.data.any (fun c => !c.isDigit) then some text else none,
            role := if isAdmin then Role.admin else Role.employee,
            isActive := true }
        { userStates := states.del frm.id,
          db := { db with users := db.users ++ [newUser] },
          replies := [Reply.accountLinked] }
  | _ => { userStates := states, db := db, replies := [] }

/-! ## Photo handler (index.ts lines 174-209) -/

/-- One entry of the `ctx.message.photo` size array. -/
structure PhotoSize where
  file_id : String
deriving DecidableEq

/-- The photo-message fields the handler reads. -/
structure PhotoMsg where
  photo : List PhotoSize
  forward_date : Option Int
  forward_from : Option Int
  forward_from_chat : Option Int

/-- The `bot.on("message:photo")` handler. -/
def onPhoto (frm : Sender) (msg : PhotoMsg) (states : StateMap) (db : DB) : StepResult :=
  match states frm.id with
  | some (ConvState.awaiting_photo shopCode) =>
    -- `ctx.message.photo[ctx.message.photo.length - 1]`
    match msg.photo.getLast? with
    | none => { userStates := states, db := db, replies := [Reply.photoFailed] }
    | some photo =>
      -- `if (!photo?.file_id)`: undefined entry or JS-falsy (empty) id
      if photo.file_id = "" then
        { userStates := states, db := db, replies := [Reply.photoFailed] }
      else if msg.forward_date.isSome || msg.forward_from.isSome ||
          msg.forward_from_chat.isSome then
        { userStates := states, db := db, replies := [Reply.forwardedRejected] }
      else
        { userStates := states.set frm.id
            (ConvState.awaiting_location shopCode photo.file_id),
          db := db,
          replies := [Reply.askLocation] }
  | _ => { userStates := states, db := db, replies := [Reply.photoStartVisitFirst] }

/-! ## Location handler (index.ts lines 212-257) -/

/-- Result of `ctx.api.getFile`. -/
structure TgFile where
  file_path : Option String

/-- Environment of the location handler: the fixed geofence target
(lines 12-15), the clock, and the outcome of each fallible collaborator
call inside the `try` block (lines 226-256): the `Shop.findOne` query,
the `ctx.api.getFile` call, and `visit.save()`. -/
structure LocEnv where
  targetLat : ℝ
  targetLng : ℝ
  shopFindFails : Bool
  getFile : String → Except Unit TgFile
  saveFails : Bool
  now : Int
  midnight : Int

/-- The location payload of `ctx.message.location`. -/
structure LocationMsg where
  latitude : ℝ
  longitude : ℝ

/-- `MAX_DISTANCE = 10000` meters (line 16). -/
noncomputable def MAX_DISTANCE : ℝ := 10000

/-- The `bot.on("message:location")` handler. -/
noncomputable def onLocation (env : LocEnv) (frm : Sender) (loc : LocationMsg)
    (states : StateMap) (db : DB) : StepResult :=
  match states frm.id with
  | some (ConvState.awaiting_location shopCode photoId) =>
    let distance :=
      calculateDistance loc.latitude loc.longitude env.targetLat env.targetLng
    if distance > MAX_DISTANCE then
      { userStates := states, db := db, replies := [Reply.tooFar (round distance)] }
    else if env.shopFindFails then
      { userStates := states, db := db, replies := [Reply.errorTryLater] }
    else
      let shop := db.shops.find? (fun s => s.code == shopCode)
      match env.getFile photoId with
      | Except.error _ =>
        { userStates := states, db := db, replies := [Reply.errorTryLater] }
      | Except.ok file =>
        if env.saveFails then
          { userStates := states, db := db, replies := [Reply.errorTryLater] }
        else
          let visit : VisitRec :=
            { telegramId := frm.id,
              firstName := frm.first_name,
              username := frm.username,
              shopCode := shopCode,
              -- `shop?.name || state.shopCode` (JS-falsy empty name)
              shopName := match shop with
                | some s => if s.name = "" then shopCode else s.name
                | none => shopCode,
              locationType := "Point",
              coordinates := [loc.longitude, loc.latitude],
              photoId := photoId,
              photoFilePath := file.file_path,
              timestamp := env.now }
          let db2 : DB := { db with visits := db.visits ++ [visit] }
          { userStates := states.del frm.id,
            db := db2,
            replies := [Reply.visitSaved] ++
              (if checkAllSubmitted db2 env.midnight then [Reply.allSubmitted] else []) }
  | _ => { userStates := states, db := db, replies := [Reply.locStartVisitFirst] }

/-! ## `/report` handler (index.ts lines 342-443) -/

/-- Outcome of an invocation of the `/report` handler as shipped. -/
inductive ReportOutcome where
  | handlerThrew

/-- Models the `/report` handler entry (lines 342-354).  Line 348
evaluates `ADMIN_IDS.split(",")`, but `ADMIN_IDS` is already the array
of numbers built on line 11
(`process.env.ADMIN_IDS?.split(",").map(Number) || []`); a JavaScript
array has no `split` method, so this statement throws
`TypeError: ADMIN_IDS.split is not a function` on every invocation,
before the admin check on line 351 and before any reply is sent.  The
async handler's rejection is routed to the global `bot.catch` hook
(lines 446-471), which only logs: no reply and no document reach the
sender, whether or not they are an admin. -/
def reportCommand (_adminIds : List Int) (_frm : Sender) (_text : String) :
    ReportOutcome :=
  ReportOutcome.handlerThrew

/-- Environment of the report generator: local-time range endpoints
(epoch ms) as computed by the `Date` arithmetic on lines 363-387, the
validity of engine-level `new Date(string)` parsing (the fallback route
of dayjs's `parseDate`; engine dependent, ECMAScript mandating only the
ISO 8601 forms), and a flag for a failure inside the `try` block
(workbook serialisation or the document send, lines 389-442). -/
structure ReportEnv where
  todayStart : Int
  todayEnd : Int
  weekStart : Int
  now : Int
  dateRange : String → Int × Int
  dateFallback : String → Bool
  buildFails : Bool

/-- Result of report generation: the `InvalidArgument` reply (line 385,
no document), a delivered document over the queried visits, or the
catch-branch error reply (line 441, no document). -/
inductive ReportResult where
  | invalidArg
  | document (fromDate toDate : Int) (visits : List VisitRec) (filename : String)
  | failed

/-- Models the report-generation body of the `/report` handler (lines
356-443) — the ReportGenerator component — as it executes once the
access gate is passed (the shipped gate never passes, see
`reportCommand`; this captures the generation logic itself).  Row
projection into spreadsheet cells (lines 394-428) is the serialisation
boundary and is not modelled: the document carries the queried visit
records and the `report_<arg>.xlsx` filename (line 437). -/
def generateReport (env : ReportEnv) (db : DB) (arg : String) : ReportResult :=
  let range : Option (Int × Int) :=
    if arg = "day" then some (env.todayStart, env.todayEnd)
    else if arg = "week" then some (env.weekStart, env.now)
    else if dayjsIsValid env.dateFallback arg then some (env.dateRange arg)
    else none
  match range with
  | none => ReportResult.invalidArg
  | some (fromDate, toDate) =>
    if env.buildFails then ReportResult.failed
    else
      ReportResult.document fromDate toDate
        (db.visits.filter (fun v =>
          decide (fromDate ≤ v.timestamp) && decide (v.timestamp ≤ toDate)))
        ("report_" ++ arg ++ ".xlsx")

/-! ## Concrete fixtures used by the witness theorems -/

/-- Fixture: an active employee with the given id. -/
def empl (i : Int) : UserRec :=
  { telegramId := i, firstName := none, username := none, employeeId := none,
    fullName := none, role := Role.employee, isActive := true }

/-- Fixture: a visit by participant `i` captured at time `ts`. -/
def visitAt (i ts : Int) : VisitRec :=
  { telegramId := i, firstName := none, username := none, shopCode := "SHOP1",
    shopName := "SHOP1", locationType := "Point", coordinates := [],
    photoId := "P", photoFilePath := none, timestamp := ts }

/-- Fixture: an empty database. -/
def dbEmpty : DB := { users := [], shops := [], visits := [] }

/-- Fixture: roster of employees 1 and 2 with a visit by each today. -/
def db12 : DB :=
  { users := [empl 1, empl 2], shops := [],
    visits := [visitAt 1 5, visitAt 2 7] }

/-- Fixture: participant 42 mid-registration. -/
def regStates : StateMap := fun k => if k = 42 then some ConvState.register else none

/-- Fixture: a registered participant 42. -/
def userU : UserRec :=
  { telegramId := 42, firstName := some "Ann", username := none,
    employeeId := some "123", fullName := none, role := Role.employee,
    isActive := true }

/-- Fixture: a database holding only participant 42. -/
def dbU : DB := { users := [userU], shops := [], visits := [] }

/-- Fixture: participant 42 awaiting a photo for shop SHOP1. -/
def photoStates : StateMap :=
  fun k => if k = 42 then some (ConvState.awaiting_photo "SHOP1") else none

/-- Fixture: a forwarded photo message. -/
def fwdMsg : PhotoMsg :=
  { photo := [{ file_id := "F1" }], forward_date := some 1700000000,
    forward_from := none, forward_from_chat := none }

/-- Fixture: environment for an in-fence location at target (10, 20)
with all collaborators succeeding. -/
def nearEnv : LocEnv :=
  { targetLat := 10, targetLng := 20, shopFindFails := false,
    getFile := fun _ => Except.ok { file_path := some "photos/1.jpg" },
    saveFails := false, now := 100, midnight := 0 }

/-- Fixture: participant 42 awaiting a location for SHOP1 and photo PH1. -/
def awaitStates : StateMap :=
  fun k => if k = 42 then some (ConvState.awaiting_location "SHOP1" "PH1") else none

/-- Fixture: environment with the fence target at (0, 0). -/
def farEnv : LocEnv :=
  { targetLat := 0, targetLng := 0, shopFindFails := false,
    getFile := fun _ => Except.ok { file_path := none },
    saveFails := false, now := 0, midnight := 0 }

/-- Fixture: environment where the fence passes (target (10, 20)) but
`visit.save()` rejects. -/
def failEnv : LocEnv :=
  { targetLat := 10, targetLng := 20, shopFindFails := false,
    getFile := fun _ => Except.ok { file_path := none },
    saveFails := true, now := 0, midnight := 0 }

/-- Fixture: a concrete report environment.  Its engine fallback rejects
every string, which is truthful for the arguments the witnesses use
(`new Date("bogus")` is an Invalid Date in every engine) and is never
consulted by the counterexample argument `"2024"`, which the numeric
pattern accepts before the fallback is reached. -/
def reportEnvC : ReportEnv :=
  { todayStart := 0, todayEnd := 86399999, weekStart := 0, now := 0,
    dateRange := fun _ => (1704067200000, 1704153599999),
    dateFallback := fun _ => false, buildFails := false }

/-! ## Lemmas about the geo validator -/

lemma atan2_zero_one : atan2 0 1 = 0 := by
  unfold atan2
  rw [if_pos one_pos]
  simp

lemma atan2_one_zero : atan2 1 0 = Real.pi / 2 := by
  unfold atan2
  norm_num

lemma calculateDistance_eval (lat1 lon1 lat2 lon2 : ℝ) :
    calculateDistance lat1 lon1 lat2 lon2 =
      6371e3 * (2 * atan2
        (Real.sqrt (Real.sin ((lat2 - lat1) * Real.pi / 180 / 2) *
            Real.sin ((lat2 - lat1) * Real.pi / 180 / 2) +
          Real.cos (lat1 * Real.pi / 180) * Real.cos (lat2 * Real.pi / 180) *
            Real.sin ((lon2 - lon1) * Real.pi / 180 / 2) *
            Real.sin ((lon2 - lon1) * Real.pi / 180 / 2)))
        (Real.sqrt (1 - (Real.sin ((lat2 - lat1) * Real.pi / 180 / 2) *
            Real.sin ((lat2 - lat1) * Real.pi / 180 / 2) +
          Real.cos (lat1 * Real.pi / 180) * Real.cos (lat2 * Real.pi / 180) *
            Real.sin ((lon2 - lon1) * Real.pi / 180 / 2) *
            Real.sin ((lon2 - lon1) * Real.pi / 180 / 2))))) := by
  unfold calculateDistance
  ring_nf

lemma calculateDistance_self (lat lon : ℝ) : calculateDistance lat lon lat lon = 0 := by
  rw [calculateDistance_eval]
  simp [atan2_zero_one]

lemma calculateDistance_comm (lat1 lon1 lat2 lon2 : ℝ) :
    calculateDistance lat1 lon1 lat2 lon2 = calculateDistance lat2 lon2 lat1 lon1 := by
  rw [calculateDistance_eval, calculateDistance_eval]
  have h1 : (lat1 - lat2) * Real.pi / 180 / 2 = -((lat2 - lat1) * Real.pi / 180 / 2) := by ring
  have h2 : (lon1 - lon2) * Real.pi / 180 / 2 = -((lon2 - lon1) * Real.pi / 180 / 2) := by ring
  simp only [h1, h2, Real.sin_neg]
  ring_nf

lemma calculateDistance_antipodal : calculateDistance 0 180 0 0 = 6371e3 * Real.pi := by
  rw [calculateDistance_eval]
  rw [show ((0 : ℝ) - 0) * Real.pi / 180 / 2 = 0 by ring]
  rw [show ((0 : ℝ) - 180) * Real.pi / 180 / 2 = -(Real.pi / 2) by ring]
  rw [show (0 : ℝ) * Real.pi / 180 = 0 by ring]
  rw [Real.sin_zero, Real.cos_zero, Real.sin_neg, Real.sin_pi_div_two]
  norm_num [atan2_one_zero]
  ring

lemma antipodal_gt_max : calculateDistance 0 180 0 0 > MAX_DISTANCE := by
  rw [calculateDistance_antipodal]
  have hpi := Real.pi_gt_three
  show (6371e3 : ℝ) * Real.pi > 10000
  nlinarith

/-! ## Lemmas about the compliance aggregator -/

lemma checkAllSubmitted_empty (db : DB) (midnight : Int) (h : roster db = []) :
    checkAllSubmitted db midnight = false := by
  simp [checkAllSubmitted, h]

lemma checkAllSubmitted_iff (db : DB) (midnight : Int) (h : roster db ≠ []) :
    (checkAllSubmitted db midnight = true ↔
      ∀ u ∈ roster db, ∃ v ∈ db.visits,
        midnight ≤ v.timestamp ∧ v.telegramId = u.telegramId) := by
  have hlen : ¬ (roster db).length = 0 := by
    simpa [List.length_eq_zero] using h
  simp only [checkAllSubmitted]
  rw [if_neg hlen, List.all_eq_true]
  constructor
  · intro hall u hu
    have hx := hall u.telegramId (List.mem_map.mpr ⟨u, hu, rfl⟩)
    simp only [List.any_eq_true, List.mem_filter, decide_eq_true_eq, beq_iff_eq] at hx
    rcases hx with ⟨v, ⟨hv, hts⟩, hid⟩
    exact ⟨v, hv, hts, hid⟩
  · intro hfor i hi
    rcases List.mem_map.mp hi with ⟨u, hu, rfl⟩
    rcases hfor u hu with ⟨v, hv, hts, hid⟩
    simp only [List.any_eq_true, List.mem_filter, decide_eq_true_eq, beq_iff_eq]
    exact ⟨v, ⟨hv, hts⟩, hid⟩

lemma checkAllSubmitted_append_nonroster (db : DB) (midnight : Int) (w : VisitRec)
    (hw : ∀ u ∈ roster db, w.telegramId ≠ u.telegramId) :
    checkAllSubmitted { db with visits := db.visits ++ [w] } midnight =
      checkAllSubmitted db midnight := by
  have hro : roster { db with visits := db.visits ++ [w] } = roster db := rfl
  by_cases h : roster db = []
  · rw [checkAllSubmitted_empty db midnight h,
      checkAllSubmitted_empty _ midnight (hro.trans h)]
  · have h1 := checkAllSubmitted_iff db midnight h
    have h2 := checkAllSubmitted_iff { db with visits := db.visits ++ [w] } midnight
      (by rw [hro]; exact h)
    have hiff : (∀ u ∈ roster db, ∃ v ∈ db.visits ++ [w],
        midnight ≤ v.timestamp ∧ v.telegramId = u.telegramId) ↔
        (∀ u ∈ roster db, ∃ v ∈ db.visits,
          midnight ≤ v.timestamp ∧ v.telegramId = u.telegramId) := by
      constructor
      · intro hall u hu
        rcases hall u hu with ⟨v, hv, hts, hid⟩
        rcases List.mem_append.mp hv with hv' | hv'
        · exact ⟨v, hv', hts, hid⟩
        · rw [List.mem_singleton.mp hv'] at hid
          exact absurd hid (hw u hu)
      · intro hall u hu
        rcases hall u hu with ⟨v, hv, hts, hid⟩
        exact ⟨v, List.mem_append_left _ hv, hts, hid⟩
    have e1 := h2.trans (hiff.trans h1.symm)
    cases hb : checkAllSubmitted { db with visits := db.visits ++ [w] } midnight
    · cases hc : checkAllSubmitted db midnight
      · rfl
      · exact absurd (e1.mpr hc) (by simp [hb])
    · exact (e1.mp hb).symm

/-! ## Claim theorems -/

/-- C8: the great-circle distance function is symmetric —
`calculateDistance` applied to swapped coordinate pairs agrees — and the
distance from any coordinate pair to itself is `0`. -/
theorem C8_distance_symm_self :
    (∀ lat1 lon1 lat2 lon2 : ℝ,
      calculateDistance lat1 lon1 lat2 lon2 = calculateDistance lat2 lon2 lat1 lon1) ∧
    (∀ lat lon : ℝ, calculateDistance lat lon lat lon = 0) :=
  ⟨calculateDistance_comm, calculateDistance_self⟩

/-- C6: `checkAllSubmitted` returns false on an empty roster of active
employees; on a non-empty roster it returns true iff every roster member
has at least one visit timestamped at or after local midnight; and a
visit by a participant outside the roster never changes the result. -/
theorem C6_allSubmittedToday (db : DB) (midnight : Int) :
    (roster db = [] → checkAllSubmitted db midnight = false) ∧
    (roster db ≠ [] →
      (checkAllSubmitted db midnight = true ↔
        ∀ u ∈ roster db, ∃ v ∈ db.visits,
          midnight ≤ v.timestamp ∧ v.telegramId = u.telegramId)) ∧
    (∀ w : VisitRec, (∀ u ∈ roster db, w.telegramId ≠ u.telegramId) →
      checkAllSubmitted { db with visits := db.visits ++ [w] } midnight =
        checkAllSubmitted db midnight) :=
  ⟨checkAllSubmitted_empty db midnight, checkAllSubmitted_iff db midnight,
   fun w hw => checkAllSubmitted_append_nonroster db midnight w hw⟩

/-- Witness for C6: empty roster gives false; with roster 1 and 2 the
characterisation holds; a visit by outsider 9 changes nothing. -/
theorem C6_allSubmittedToday_witness :
    checkAllSubmitted dbEmpty 0 = false ∧
    (checkAllSubmitted db12 0 = true ↔
      ∀ u ∈ roster db12, ∃ v ∈ db12.visits,
        0 ≤ v.timestamp ∧ v.telegramId = u.telegramId) ∧
    checkAllSubmitted { db12 with visits := db12.visits ++ [visitAt 9 5] } 0 =
      checkAllSubmitted db12 0 :=
  ⟨(C6_allSubmittedToday dbEmpty 0).1 rfl,
   (C6_allSubmittedToday db12 0).2.1 (by decide),
   (C6_allSubmittedToday db12 0).2.2 (visitAt 9 5) (by decide)⟩

/-- C9: a registered participant invoking `/visit` with a code token
gets their conversation state — whatever it was, including a flow in
progress — replaced by `awaiting_photo code`; nothing is persisted. -/
theorem C9_visit_replaces_state (frm : Sender) (text : String) (states : StateMap)
    (db : DB) (code : String) (u : UserRec)
    (hcode : (splitWhitespace text).get? 1 = some code)
    (hne : code ≠ "")
    (huser : db.users.find? (fun x => x.telegramId == frm.id) = some u) :
    onVisitCommand frm text states db =
      { userStates := states.set frm.id (ConvState.awaiting_photo code),
        db := db,
        replies := [Reply.visitStarted code] } := by
  simp only [onVisitCommand, hcode, huser, if_neg hne]

/-- Witness for C9 at a concrete message (the participant is
mid-registration when `/visit` lands, so a flow is discarded). -/
theorem C9_visit_replaces_state_witness :
    onVisitCommand ⟨42, some "Ann", none⟩ "/visit SHOP1" regStates dbU =
      { userStates := regStates.set 42 (ConvState.awaiting_photo "SHOP1"),
        db := dbU,
        replies := [Reply.visitStarted "SHOP1"] } :=
  C9_visit_replaces_state ⟨42, some "Ann", none⟩ "/visit SHOP1" regStates dbU
    "SHOP1" userU (by decide) (by decide) (by decide)

/-- C7: registering stores the trimmed text in the employee-identifier
field when it is digits-only, in the full-name field when it contains a
non-digit, never in both, and derives the admin role exactly from
membership in the static admin id list. -/
theorem C7_registration_fields (adminIds : List Int) (frm : Sender) (rawText : String)
    (states : StateMap) (db : DB) (t : String)
    (hst : states frm.id = some ConvState.register)
    (hnew : db.users.find? (fun x => x.telegramId == frm.id) = none)
    (ht : String.mk (trimChars rawText.data) = t) :
    ∃ u : UserRec,
      (onText adminIds frm rawText false states db).db.users = db.users ++ [u] ∧
      (t.data ≠ [] → t.data.all Char.isDigit = true →
        u.employeeId = some t ∧ u.fullName = none) ∧
      (t.data.any (fun c => !c.isDigit) = true →
        u.fullName = some t ∧ u.employeeId = none) ∧
      ¬(u.employeeId.isSome = true ∧ u.fullName.isSome = true) ∧
      (u.role = Role.admin ↔ frm.id ∈ adminIds) := by
  have hanyFalse : t.data.all Char.isDigit = true →
      t.data.any (fun c => !c.isDigit) = false := by
    intro hall
    rw [Bool.eq_false_iff]
    intro hx
    rcases List.any_eq_true.mp hx with ⟨c, hc, hcd⟩
    have := List.all_eq_true.mp hall c hc
    simp [this] at hcd
  have htd : trimChars rawText.data = t.data := by rw [← ht]
  have hmk : String.mk t.data = t := rfl
  simp only [onText, hst, hnew, Bool.false_eq_true, if_false, htd, hmk]
  refine ⟨_, rfl, ?_, ?_, ?_, ?_⟩
  · intro hne hall
    have hni : t.data.isEmpty = false := by
      cases hd : t.data with
      | nil => exact absurd hd hne
      | cons a l => rfl
    have hcond : (!t.data.isEmpty && t.data.all Char.isDigit) = true := by
      rw [hni, hall]; rfl
    exact ⟨if_pos hcond, if_neg (by simp [hanyFalse hall])⟩
  · intro hany
    have hcond : (!t.data.isEmpty && t.data.all Char.isDigit) = false := by
      rcases List.any_eq_true.mp hany with ⟨c, hc, hcd⟩
      have hfa : t.data.all Char.isDigit = false := by
        rw [Bool.eq_false_iff]
        intro hx
        have := List.all_eq_true.mp hx c hc
        simp [this] at hcd
      simp [hfa]
    exact ⟨if_pos hany, if_neg (by simp [hcond])⟩
  · rintro ⟨he, hf⟩
    have he' : (if (!t.data.isEmpty && t.data.all Char.isDigit) = true
        then some t else none).isSome = true := he
    have hf' : (if (t.data.any fun c => !c.isDigit) = true
        then some t else none).isSome = true := hf
    by_cases h1 : (!t.data.isEmpty && t.data.all Char.isDigit) = true
    · have hall := (Bool.and_eq_true _ _ |>.mp h1).2
      rw [if_neg (by rw [hanyFalse hall]; simp)] at hf'
      simp at hf'
    · rw [if_neg h1] at he'
      simp at he'
  · show (if adminIds.contains frm.id = true then Role.admin else Role.employee) =
      Role.admin ↔ frm.id ∈ adminIds
    by_cases hc : frm.id ∈ adminIds
    · have hcont : adminIds.contains frm.id = true := by simp [hc]
      rw [if_pos hcont]
      simp [hc]
    · have hcont : adminIds.contains frm.id = false := by simp [hc]
      rw [if_neg (by rw [hcont]; simp)]
      simp [hc]

/-- Witness for C7: participant 42 (admin list is `[7]`) registers with
the digits-only text `" 123 "`. -/
theorem C7_registration_fields_witness :
    ∃ u : UserRec,
      (onText [7] ⟨42, some "Ann", none⟩ " 123 " false regStates dbEmpty).db.users =
        dbEmpty.users ++ [u] ∧
      (("123" : String).data ≠ [] → ("123" : String).data.all Char.isDigit = true →
        u.employeeId = some "123" ∧ u.fullName = none) ∧
      (("123" : String).data.any (fun c => !c.isDigit) = true →
        u.fullName = some "123" ∧ u.employeeId = none) ∧
      ¬(u.employeeId.isSome = true ∧ u.fullName.isSome = true) ∧
      (u.role = Role.admin ↔ (42 : Int) ∈ [(7 : Int)]) :=
  C7_registration_fields [7] ⟨42, some "Ann", none⟩ " 123 " regStates dbEmpty "123"
    (by decide) (by decide) (by decide)

/-- C5: a forwarded photo sent while in `awaiting_photo x` draws the
rejection reply and leaves the conversation state (still
`awaiting_photo x`) and the database untouched. -/
theorem C5_forwarded_photo_rejected (frm : Sender) (msg : PhotoMsg) (states : StateMap)
    (db : DB) (x : String) (p : PhotoSize)
    (hst : states frm.id = some (ConvState.awaiting_photo x))
    (hp : msg.photo.getLast? = some p)
    (hfid : p.file_id ≠ "")
    (hfwd : (msg.forward_date.isSome || msg.forward_from.isSome ||
      msg.forward_from_chat.isSome) = true) :
    onPhoto frm msg states db =
      { userStates := states, db := db, replies := [Reply.forwardedRejected] } ∧
    (onPhoto frm msg states db).userStates frm.id =
      some (ConvState.awaiting_photo x) := by
  have hmain : onPhoto frm msg states db =
      { userStates := states, db := db, replies := [Reply.forwardedRejected] } := by
    simp only [onPhoto, hst, hp, if_neg hfid, hfwd, eq_self_iff_true, if_true]
  exact ⟨hmain, by rw [hmain]; exact hst⟩

/-- Witness for C5 at a concrete forwarded photo. -/
theorem C5_forwarded_photo_rejected_witness :
    onPhoto ⟨42, none, none⟩ fwdMsg photoStates dbEmpty =
      { userStates := photoStates, db := dbEmpty,
        replies := [Reply.forwardedRejected] } ∧
    (onPhoto ⟨42, none, none⟩ fwdMsg photoStates dbEmpty).userStates 42 =
      some (ConvState.awaiting_photo "SHOP1") :=
  C5_forwarded_photo_rejected ⟨42, none, none⟩ fwdMsg photoStates dbEmpty
    "SHOP1" ⟨"F1"⟩ (by decide) (by decide) (by decide) (by decide)

/-- C1: a location within the fence while `awaiting_location sc pid`,
with all persistence collaborators succeeding, appends exactly one visit
record — with that shop code, that photo reference and coordinates in
longitude-latitude order — and clears the state to absent. -/
theorem C1_in_fence_visit_saved (env : LocEnv) (frm : Sender) (loc : LocationMsg)
    (states : StateMap) (db : DB) (sc pid : String) (file : TgFile)
    (hst : states frm.id = some (ConvState.awaiting_location sc pid))
    (hdist : ¬ calculateDistance loc.latitude loc.longitude env.targetLat env.targetLng >
      MAX_DISTANCE)
    (hshop : env.shopFindFails = false)
    (hfile : env.getFile pid = Except.ok file)
    (hsave : env.saveFails = false) :
    (∃ v : VisitRec,
      (onLocation env frm loc states db).db.visits = db.visits ++ [v] ∧
      v.telegramId = frm.id ∧ v.shopCode = sc ∧ v.photoId = pid ∧
      v.coordinates = [loc.longitude, loc.latitude]) ∧
    (onLocation env frm loc states db).userStates frm.id = none := by
  simp only [onLocation, hst, if_neg hdist, hshop, Bool.false_eq_true, if_false,
    hfile, hsave]
  constructor
  · exact ⟨_, rfl, rfl, rfl, rfl, rfl⟩
  · simp [StateMap.del]

/-- Witness for C1: participant 42 sends location (10, 20) with the
fence target at (10, 20); distance 0 is within the 10000 m threshold. -/
theorem C1_in_fence_visit_saved_witness :
    (∃ v : VisitRec,
      (onLocation nearEnv ⟨42, some "Ann", none⟩ ⟨10, 20⟩ awaitStates dbEmpty).db.visits =
        dbEmpty.visits ++ [v] ∧
      v.telegramId = 42 ∧ v.shopCode = "SHOP1" ∧ v.photoId = "PH1" ∧
      v.coordinates = [(20 : ℝ), 10]) ∧
    (onLocation nearEnv ⟨42, some "Ann", none⟩ ⟨10, 20⟩ awaitStates dbEmpty).userStates 42 =
      none :=
  C1_in_fence_visit_saved nearEnv ⟨42, some "Ann", none⟩ ⟨10, 20⟩ awaitStates dbEmpty
    "SHOP1" "PH1" { file_path := some "photos/1.jpg" }
    (by decide)
    (by show ¬ calculateDistance 10 20 10 20 > MAX_DISTANCE
        rw [calculateDistance_self]
        show ¬ (0 : ℝ) > (10000 : ℝ)
        norm_num)
    rfl rfl rfl

/-- C4: a location farther than the threshold while awaiting a location
draws the distance-reporting rejection, persists nothing, and leaves the
participant in the same `awaiting_location` state. -/
theorem C4_out_of_fence_rejected (env : LocEnv) (frm : Sender) (loc : LocationMsg)
    (states : StateMap) (db : DB) (sc pid : String)
    (hst : states frm.id = some (ConvState.awaiting_location sc pid))
    (hdist : calculateDistance loc.latitude loc.longitude env.targetLat env.targetLng >
      MAX_DISTANCE) :
    onLocation env frm loc states db =
      { userStates := states, db := db,
        replies := [Reply.tooFar (round
          (calculateDistance loc.latitude loc.longitude env.targetLat env.targetLng))] } ∧
    (onLocation env frm loc states db).userStates frm.id =
      some (ConvState.awaiting_location sc pid) := by
  have hmain : onLocation env frm loc states db =
      { userStates := states, db := db,
        replies := [Reply.tooFar (round
          (calculateDistance loc.latitude loc.longitude env.targetLat env.targetLng))] } := by
    simp only [onLocation, hst, if_pos hdist]
  exact ⟨hmain, by rw [hmain]; exact hst⟩

/-- Witness for C4: a location on the equator at longitude 180 with the
target at (0, 0) is about 20 million meters away. -/
theorem C4_out_of_fence_rejected_witness :
    onLocation farEnv ⟨42, none, none⟩ ⟨0, 180⟩ awaitStates dbEmpty =
      { userStates := awaitStates, db := dbEmpty,
        replies := [Reply.tooFar (round (calculateDistance 0 180 0 0))] } ∧
    (onLocation farEnv ⟨42, none, none⟩ ⟨0, 180⟩ awaitStates dbEmpty).userStates 42 =
      some (ConvState.awaiting_location "SHOP1" "PH1") :=
  C4_out_of_fence_rejected farEnv ⟨42, none, none⟩ ⟨0, 180⟩ awaitStates dbEmpty
    "SHOP1" "PH1" (by decide) antipodal_gt_max

/-- C10: if any persistence step fails while handling an in-fence
location — the shop lookup, the media path resolution, or the save — the
state keeps the same `awaiting_location` value, the database is
unchanged, and the error reply is sent. -/
theorem C10_persist_failure_keeps_state (env : LocEnv) (frm : Sender) (loc : LocationMsg)
    (states : StateMap) (db : DB) (sc pid : String)
    (hst : states frm.id = some (ConvState.awaiting_location sc pid))
    (hdist : ¬ calculateDistance loc.latitude loc.longitude env.targetLat env.targetLng >
      MAX_DISTANCE)
    (hfail : env.shopFindFails = true ∨ env.getFile pid = Except.error () ∨
      env.saveFails = true) :
    (onLocation env frm loc states db).userStates = states ∧
    (onLocation env frm loc states db).userStates frm.id =
      some (ConvState.awaiting_location sc pid) ∧
    (onLocation env frm loc states db).db = db ∧
    (onLocation env frm loc states db).replies = [Reply.errorTryLater] := by
  have hmain : onLocation env frm loc states db =
      { userStates := states, db := db, replies := [Reply.errorTryLater] } := by
    rcases hfail with hf | hf | hf
    · simp only [onLocation, hst, if_neg hdist, hf, eq_self_iff_true, if_true]
    · cases hsf : env.shopFindFails
      · simp only [onLocation, hst, if_neg hdist, hsf, Bool.false_eq_true, if_false, hf]
      · simp only [onLocation, hst, if_neg hdist, hsf, eq_self_iff_true, if_true]
    · cases hsf : env.shopFindFails
      · cases hgf : env.getFile pid with
        | error e =>
          simp only [onLocation, hst, if_neg hdist, hsf, Bool.false_eq_true, if_false, hgf]
        | ok file =>
          simp only [onLocation, hst, if_neg hdist, hsf, Bool.false_eq_true, if_false,
            hgf, hf, eq_self_iff_true, if_true]
      · simp only [onLocation, hst, if_neg hdist, hsf, eq_self_iff_true, if_true]
  exact ⟨by rw [hmain], by rw [hmain]; exact hst, by rw [hmain], by rw [hmain]⟩

/-- Witness for C10: the save fails on an in-fence location; participant
42 stays in `awaiting_location "SHOP1" "PH1"`. -/
theorem C10_persist_failure_keeps_state_witness :
    (onLocation failEnv ⟨42, none, none⟩ ⟨10, 20⟩ awaitStates dbEmpty).userStates =
      awaitStates ∧
    (onLocation failEnv ⟨42, none, none⟩ ⟨10, 20⟩ awaitStates dbEmpty).userStates 42 =
      some (ConvState.awaiting_location "SHOP1" "PH1") ∧
    (onLocation failEnv ⟨42, none, none⟩ ⟨10, 20⟩ awaitStates dbEmpty).db = dbEmpty ∧
    (onLocation failEnv ⟨42, none, none⟩ ⟨10, 20⟩ awaitStates dbEmpty).replies =
      [Reply.errorTryLater] :=
  C10_persist_failure_keeps_state failEnv ⟨42, none, none⟩ ⟨10, 20⟩ awaitStates dbEmpty
    "SHOP1" "PH1" (by decide)
    (by show ¬ calculateDistance 10 20 10 20 > MAX_DISTANCE
        rw [calculateDistance_self]
        show ¬ (0 : ℝ) > (10000 : ℝ)
        norm_num)
    (Or.inr (Or.inr rfl))

/-- C2 (code bug): every `/report` invocation — admin or not — throws a
TypeError at the `ADMIN_IDS.split` call before the admin check, so
neither the Unauthorized reply for non-admins nor report generation for
admins is reachable in the shipped handler. -/
theorem C2_report_always_throws (adminIds : List Int) (frm : Sender) (text : String) :
    reportCommand adminIds frm text = ReportOutcome.handlerThrew := rfl

/-- C3 (amended): a report range argument that is neither `day` nor
`week` and is not accepted by dayjs's default parse — its numeric
pattern or, on the fallback routes, the engine's `new Date(string)`
validity carried by the environment — draws the InvalidArgument reply
and produces no document. -/
theorem C3_invalid_range_rejected (env : ReportEnv) (db : DB) (arg : String)
    (hd : arg ≠ "day") (hw : arg ≠ "week")
    (hv : dayjsIsValid env.dateFallback arg = false) :
    generateReport env db arg = ReportResult.invalidArg := by
  simp only [generateReport, if_neg hd, if_neg hw, hv, Bool.false_eq_true, if_false]

/-- Witness for the amended C3 at the argument `"bogus"`. -/
theorem C3_invalid_range_rejected_witness :
    generateReport reportEnvC dbEmpty "bogus" = ReportResult.invalidArg :=
  C3_invalid_range_rejected reportEnvC dbEmpty "bogus" (by decide) (by decide) (by decide)

/-- C3 counterexample: the argument `"2024"` is not `"day"`, not
`"week"`, and not a calendar date in `YYYY-MM-DD` form, yet report
generation accepts it (dayjs's default parser reads it as 2024-01-01,
the format argument being ignored) and produces a document rather than
failing with InvalidArgument. -/
theorem C3_counterexample :
    generateReport reportEnvC dbEmpty "2024" =
      ReportResult.document 1704067200000 1704153599999 [] "report_2024.xlsx" ∧
    ReportResult.document 1704067200000 1704153599999 ([] : List VisitRec)
        "report_2024.xlsx" ≠ ReportResult.invalidArg := by
  constructor
  · rfl
  · intro h
    exact ReportResult.noConfusion h

end VisitBot
